import Mathlib

/-!
Verification of the NES emulator core (srleyva/NES-Emulator): a shallow
embedding of the CPU engine (`src/cpu/mod.rs`), memory bus
(`src/bus/mod.rs`) and PPU timing/register unit (`src/ppu/*.rs`) in Lean.

Conventions of the embedding:
* machine integers (`u8`, `u16`, `usize`) are `Nat`, with explicit `% 256`
  / `% 65536` or masks at every operation where Rust wraps;
* Rust arrays and `Vec`s are pairs of a contents function `Nat → Nat` and a
  length; indexing out of bounds (a Rust panic) yields `none`;
* fallible operations (any path that can `panic!` or hit `todo!`) return
  `Option`; `none` means the Rust code aborts;
* `&mut self` methods are state-passing functions returning the new state.
-/

namespace NES

/-- Rust array/`Vec` indexing `a[idx]` over a contents function and a
length: panics (`none`) when the index is out of bounds. -/
def arrGet (a : Nat → Nat) (len idx : Nat) : Option Nat :=
  if idx < len then some (a idx) else none

/-- Rust array store `a[idx] = v` (callers establish the bound). -/
def arrSet (a : Nat → Nat) (idx v : Nat) : Nat → Nat :=
  fun i => if i = idx then v else a i

/-- `bitflags` membership `self.contains(mask)`: `bits & mask == mask`. -/
def flagContains (bits mask : Nat) : Bool :=
  bits &&& mask == mask

/-- `bitflags` `self.insert(mask)`. -/
def flagInsert (bits mask : Nat) : Nat :=
  bits ||| mask

/-- `bitflags` `self.remove(mask)` over 8-bit flag sets. -/
def flagRemove (bits mask : Nat) : Nat :=
  bits &&& (0xFF ^^^ mask)

/-- `bitflags` `self.set(mask, b)`. -/
def flagSet (bits mask : Nat) (b : Bool) : Nat :=
  if b then flagInsert bits mask else flagRemove bits mask

/-- `u8::wrapping_sub` on byte values. -/
def wrappingSub8 (x y : Nat) : Nat :=
  (x + 256 - y % 256) % 256

/-- `(x as i8).wrapping_neg() as u8`. -/
def wrappingNeg8 (x : Nat) : Nat :=
  (256 - x % 256) % 256

/-- Bit masks of the CPU status register. Modelled from the spec: the
`ProcessorStatus` bitflags type that `cpu/mod.rs` imports is not among the
sources (`processor_status.rs` only holds the superseded `ProcesssorStatus`
iteration); the spec's data model fixes eight flags packed into one byte
with break/break2 at bits 4/5 and the standard 6502 layout for the rest. -/
def ProcessorStatus.CARRY : Nat := 0x01

def ProcessorStatus.ZERO : Nat := 0x02

def ProcessorStatus.INTERRUPT_DISABLE : Nat := 0x04

def ProcessorStatus.DECIMAL : Nat := 0x08

def ProcessorStatus.BREAK : Nat := 0x10

def ProcessorStatus.BREAK2 : Nat := 0x20

def ProcessorStatus.OVERFLOW : Nat := 0x40

def ProcessorStatus.NEGATIVE : Nat := 0x80

/-- `ProcessorStatus::is_negative`: tests bit 7. -/
def ProcessorStatus.is_negative (int : Nat) : Bool :=
  int &&& 0x80 != 0

/-- `rom::Mirroring`. -/
inductive Mirroring
  | vertical
  | horizontal
  | fourScreen
deriving DecidableEq

/-- `cpu::interrupt::InterruptType`. -/
inductive InterruptType
  | nmi
  | irq
  | brk
deriving DecidableEq

/-- `cpu::interrupt::Interrupt`. -/
structure Interrupt where
  itype : InterruptType
  vector_addr : Nat
  break_flag : Bool
  cpu_cycles : Nat

def NMI_VECTOR : Nat := 0xfffa

def IRQ_BRK_VECTOR : Nat := 0xfffe

def RESET_VECTOR : Nat := 0xfffc

/-- The `NMI` interrupt constant. -/
def NMI : Interrupt := ⟨.nmi, NMI_VECTOR, false, 2⟩

/-- The `IRQ` interrupt constant. -/
def IRQ : Interrupt := ⟨.irq, IRQ_BRK_VECTOR, false, 2⟩

/-- The `BRK` interrupt constant. -/
def BRK : Interrupt := ⟨.brk, IRQ_BRK_VECTOR, true, 1⟩

/-! PPU registers (`ppu/registers.rs`, `ppu/address.rs`, `ppu/scroll.rs`). -/

def Control.VRAM_ADD_INCREMENT : Nat := 0b00000100

def Control.GENERATE_NMI : Nat := 0b10000000

/-- `Control::vram_addr_increment`. -/
def Control.vram_addr_increment (ctrl : Nat) : Nat :=
  if !flagContains ctrl Control.VRAM_ADD_INCREMENT then 1 else 32

/-- Modelled from the spec: `Control::generate_vblank_nmi` is called by
`ppu/mod.rs` but defined in none of the sources; per the spec's data model
it tests the control register's "generate interrupt on vblank" bit. -/
def Control.generate_vblank_nmi (ctrl : Nat) : Bool :=
  flagContains ctrl Control.GENERATE_NMI

/-- `Control::update`: `self.bits = data`. -/
def Control.update (_ctrl data : Nat) : Nat :=
  data

def Status.VBLANK_STARTED : Nat := 0b10000000

/-- `Status::set_vblank_status`. -/
def Status.set_vblank_status (st : Nat) (status : Bool) : Nat :=
  flagSet st Status.VBLANK_STARTED status

/-- `Status::reset_vblank_status`. -/
def Status.reset_vblank_status (st : Nat) : Nat :=
  flagRemove st Status.VBLANK_STARTED

/-- `Status::is_in_vblank`. -/
def Status.is_in_vblank (st : Nat) : Bool :=
  flagContains st Status.VBLANK_STARTED

/-- `Status::snapshot`: returns the raw bits. -/
def Status.snapshot (st : Nat) : Nat :=
  st

/-- `ppu::address::Address`: internal VRAM address register, two bytes and
a write-toggle latch (`pointer`; true selects the low byte). -/
structure Address where
  hi : Nat
  lo : Nat
  pointer : Bool

/-- `Address::default`. -/
def Address.default : Address :=
  ⟨0, 0, false⟩

/-- `Address::get`. -/
def Address.get (a : Address) : Nat :=
  (a.hi <<< 8) ||| a.lo

/-- `Address::set`. -/
def Address.set (a : Address) (address : Nat) : Address :=
  { a with hi := (address >>> 8) &&& 0xFF, lo := address &&& 0xFF }

/-- `Address::set_mirror_down`: mask the address with `0x3FFF` when it
leaves the PPU address space. -/
def Address.set_mirror_down (a : Address) : Address :=
  if a.get > 0x3fff then a.set (a.get &&& 0x3FFF) else a

/-- `Address::increment`: wrapping add on the low byte with carry into the
high byte, then mirror down. -/
def Address.increment (a : Address) (value : Nat) : Address :=
  let lo := a.lo
  let lo1 := (a.lo + value) % 256
  let a := { a with lo := lo1, hi := if lo > lo1 then (a.hi + 1) % 256 else a.hi }
  a.set_mirror_down

/-- `Address::update`: one-byte write through the toggle latch. -/
def Address.update (a : Address) (data : Nat) : Address :=
  let a := if !a.pointer then { a with hi := data } else { a with lo := data }
  let a := a.set_mirror_down
  { a with pointer := !a.pointer }

/-- `Address::reset_latch`. -/
def Address.reset_latch (a : Address) : Address :=
  { a with pointer := false }

/-- `ppu::scroll::Scroll`. -/
structure Scroll where
  scroll_x : Nat
  scroll_y : Nat
  latch : Bool

/-- `Scroll::write`. -/
def Scroll.write (s : Scroll) (data : Nat) : Scroll :=
  let s := if !s.latch then { s with scroll_x := data } else { s with scroll_y := data }
  { s with latch := !s.latch }

/-- `Scroll::reset_latch`. -/
def Scroll.reset_latch (s : Scroll) : Scroll :=
  { s with latch := false }

/-- `ppu::PPUAddress`: the decoded form of a 16-bit PPU-space address. -/
inductive PPUAddress
  | chrrom (value : Nat)
  | ram (value : Nat)
  | paletteTable (value : Nat)
  | controller
  | mask
  | status
  | oamAddress
  | oamData
  | scroll
  | address
  | data
  | oamdma
deriving DecidableEq

/-- `impl From<u16> for PPUAddress`: `none` is the `panic!` arms (the
`0x3000..=0x3eff` range, `0x2008`, and anything unmapped). -/
def PPUAddress.fromU16 (value : Nat) : Option PPUAddress :=
  if value ≤ 0x1fff then some (.chrrom value)
  else if value = 0x2000 then some .controller
  else if value = 0x2001 then some .mask
  else if value = 0x2002 then some .status
  else if value = 0x2003 then some .oamAddress
  else if value = 0x2004 then some .oamData
  else if value = 0x2005 then some .scroll
  else if value = 0x2006 then some .address
  else if value = 0x2007 then some .data
  else if 0x2009 ≤ value ∧ value ≤ 0x2fff then some (.ram value)
  else if 0x3000 ≤ value ∧ value ≤ 0x3eff then none
  else if 0x3f00 ≤ value ∧ value ≤ 0x3fff then some (.paletteTable value)
  else if value = 0x4014 then some .oamdma
  else none

/-- `ppu::PPU`. `palette_table` is 32 bytes, `vram` 2048 bytes, `oam_data`
256 bytes; `chr_rom` is a `Vec` with its length carried alongside. -/
structure PPU where
  palette_table : Nat → Nat
  vram : Nat → Nat
  chr_rom : Nat → Nat
  chr_rom_len : Nat
  oam_addr : Nat
  oam_data : Nat → Nat
  mirroring : Mirroring
  buffer : Nat
  nmi_interrupt : Option InterruptType
  ctrl : Nat
  mask : Nat
  status : Nat
  scroll : Scroll
  address : Address
  scanline : Nat
  cycles : Nat

/-- `PPU::new`. -/
def PPU.new (chr_rom : Nat → Nat) (chr_rom_len : Nat) (mirroring : Mirroring) : PPU :=
  { chr_rom, chr_rom_len
    vram := fun _ => 0
    oam_data := fun _ => 0
    oam_addr := 0
    palette_table := fun _ => 0
    mirroring
    address := Address.default
    ctrl := 0
    status := 0
    mask := 0
    scroll := ⟨0, 0, false⟩
    buffer := 0
    scanline := 0
    cycles := 0
    nmi_interrupt := none }

/-- `PPU::mirror_vram_addr`: mirror `0x3000..=0x3eff` down, subtract the
VRAM base and fold the four name tables per the cartridge mirroring. -/
def PPU.mirror_vram_addr (p : PPU) (addr : Nat) : Nat :=
  let mirrored_vram := addr &&& 0b10111111111111
  let vram_index := mirrored_vram - 0x2000
  let name_table := vram_index / 0x400
  match p.mirroring, name_table with
  | .vertical, 2 => vram_index - 0x800
  | .vertical, 3 => vram_index - 0x800
  | .horizontal, 2 => vram_index - 0x400
  | .horizontal, 1 => vram_index - 0x400
  | .horizontal, 3 => vram_index - 0x800
  | _, _ => vram_index

/-- `PPU::read_data`: a data-port read. Returns the read byte and the new
PPU state; `none` is a panic (out-of-bounds index, a write-only target, or
a `PPUAddress` conversion panic). -/
def PPU.read_data (p : PPU) : Option (Nat × PPU) :=
  let addressVal := p.address.get
  let p := { p with address := p.address.increment (Control.vram_addr_increment p.ctrl) }
  match PPUAddress.fromU16 addressVal with
  | some (.chrrom value) =>
    (arrGet p.chr_rom p.chr_rom_len value).map fun b =>
      (p.buffer, { p with buffer := b })
  | some (.paletteTable value) =>
    (arrGet p.palette_table 32 value).map fun b => (b, p)
  | some (.ram value) =>
    (arrGet p.vram 2048 (p.mirror_vram_addr value)).map fun b =>
      (p.buffer, { p with buffer := b })
  | some .status =>
    let data := Status.snapshot p.status
    some (data, { p with status := Status.reset_vblank_status p.status
                         address := p.address.reset_latch
                         scroll := p.scroll.reset_latch })
  | some _ => none
  | none => none

/-- `PPU::write_data`: a data-port write; only the VRAM target is
supported, everything else panics. -/
def PPU.write_data (p : PPU) (data : Nat) : Option PPU :=
  let addressVal := p.address.get
  let p := { p with address := p.address.increment (Control.vram_addr_increment p.ctrl) }
  match PPUAddress.fromU16 addressVal with
  | some (.ram addr) =>
    if p.mirror_vram_addr addr < 2048 then
      some { p with vram := arrSet p.vram (p.mirror_vram_addr addr) data }
    else none
  | _ => none

/-- `PPU::read_register`: the CPU-visible register read dispatch. Write-only
registers and non-register targets panic (`none`). -/
def PPU.read_register (p : PPU) (register : Nat) : Option (Nat × PPU) :=
  match PPUAddress.fromU16 register with
  | some .controller => none
  | some .mask => none
  | some .oamAddress => none
  | some .scroll => none
  | some .address => none
  | some .oamdma => none
  | some .oamData => (arrGet p.oam_data 256 p.oam_addr).map fun b => (b, p)
  | some .data => p.read_data
  | some .status => some (p.status, p)
  | some _ => none
  | none => none

/-- `PPU::write_register` with a `PPUValue::Byte` payload (the only payload
the bus's `write_byte` sends). The `OAMDMA` arm converts the payload to a
256-byte buffer, which panics on a byte. -/
def PPU.write_register (p : PPU) (register : Nat) (data : Nat) : Option PPU :=
  match PPUAddress.fromU16 register with
  | some .controller =>
    let before_nmi_status := Control.generate_vblank_nmi p.ctrl
    let p := { p with ctrl := Control.update p.ctrl data }
    if !before_nmi_status && Control.generate_vblank_nmi p.ctrl
        && Status.is_in_vblank p.status then
      some { p with nmi_interrupt := some .nmi }
    else some p
  | some .mask => some { p with mask := data }
  | some .status => none
  | some .oamAddress => some { p with oam_addr := data }
  | some .oamData =>
    some { p with oam_data := arrSet p.oam_data p.oam_addr data
                  oam_addr := (p.oam_addr + 1) % 256 }
  | some .scroll => some { p with scroll := p.scroll.write data }
  | some .address => some { p with address := p.address.update data }
  | some .data => p.write_data data
  | some .oamdma => none
  | some _ => none
  | none => none

/-- `PPU::tick`: advance the dot clock; on crossing a 341-cycle scanline
boundary advance the scanline. In the source, reaching scanline 241 with
NMI generation enabled sets the vblank flag and then hits
`todo!("Should trigger NMI interrupt")`, a panic — modelled as `none`.
Returns the frame-complete flag and the new state otherwise. -/
def PPU.tick (p : PPU) (cycles : Nat) : Option (Bool × PPU) :=
  let p := { p with cycles := p.cycles + cycles }
  if p.cycles ≥ 341 then
    let p := { p with cycles := p.cycles - 341, scanline := p.scanline + 1 }
    let afterVblank : Option PPU :=
      if p.scanline = 241 then
        if Control.generate_vblank_nmi p.ctrl then none
        else some p
      else some p
    match afterVblank with
    | none => none
    | some p =>
      if p.scanline ≥ 262 then
        some (true, { p with scanline := 0
                             status := Status.reset_vblank_status p.status })
      else some (false, p)
  else some (false, p)

/-! Memory bus (`bus/mod.rs`). -/

/-- `rom::Rom` (the parsed cartridge, received from the loader). -/
structure Rom where
  prg_rom : Nat → Nat
  prg_rom_len : Nat
  chr_rom : Nat → Nat
  chr_rom_len : Nat
  mapper : Nat
  screen_mirroring : Mirroring

/-- `bus::MemoryBus`: 2 KiB RAM, the cartridge PRG bytes, the PPU and a
cycle counter. -/
structure MemoryBus where
  memory : Nat → Nat
  prg_rom : Nat → Nat
  prg_rom_len : Nat
  ppu : PPU
  cycles : Nat

/-- `MemoryBus::new`. -/
def MemoryBus.new (rom : Rom) : MemoryBus :=
  { memory := fun _ => 0
    prg_rom := rom.prg_rom
    prg_rom_len := rom.prg_rom_len
    ppu := PPU.new rom.chr_rom rom.chr_rom_len rom.screen_mirroring
    cycles := 0 }

/-- `MemoryBus::poll_nmi_status`. -/
def MemoryBus.poll_nmi_status (b : MemoryBus) : Option InterruptType :=
  b.ppu.nmi_interrupt

/-- `MemoryBus::read_from_rom`: shift into PRG space and mirror a 16 KiB
image across the 32 KiB window. -/
def MemoryBus.read_from_rom (b : MemoryBus) (address : Nat) : Option Nat :=
  let address := address - 0x8000
  let address :=
    if b.prg_rom_len = 0x4000 ∧ address ≥ 0x4000 then address % 0x4000 else address
  arrGet b.prg_rom b.prg_rom_len address

/-- `MemoryBus::read_byte`: the address decode. RAM is mirrored with mask
`0x07FF`; `0x2000..=0x3FFF` and `0x4014` go to the PPU registers;
`0x8000..=0xFFFF` to PRG ROM; anything else hits the
`panic!("Ignoring mem access ...")` arm, modelled `none`. -/
def MemoryBus.read_byte (b : MemoryBus) (address : Nat) : Option (Nat × MemoryBus) :=
  if address ≤ 0x1FFF then
    some (b.memory (address &&& 0b11111111111), b)
  else if (0x2000 ≤ address ∧ address ≤ 0x3FFF) ∨ address = 0x4014 then
    (b.ppu.read_register address).map fun r => (r.1, { b with ppu := r.2 })
  else if 0x8000 ≤ address ∧ address ≤ 0xFFFF then
    (b.read_from_rom address).map fun v => (v, b)
  else none

/-- `MemoryBus::write_byte` as compiled outside `cfg(test)` (the
interrupt-vector arm is test-only): RAM and PPU registers are writable,
writes into `0x8000..=0xFFFF` panic ("Attempt to write to Cartridge ROM
space"), and any other address is a diagnostic `println!` no-op. -/
def MemoryBus.write_byte (b : MemoryBus) (address data : Nat) : Option MemoryBus :=
  if address ≤ 0x1FFF then
    some { b with memory := arrSet b.memory (address &&& 0b11111111111) data }
  else if (0x2000 ≤ address ∧ address ≤ 0x3FFF) ∨ address = 0x4014 then
    (b.ppu.write_register address data).map fun p => { b with ppu := p }
  else if 0x8000 ≤ address ∧ address ≤ 0xFFFF then
    none
  else
    some b

/-- `MemoryBus::read_word`: little-endian, two `read_byte` calls at
`address` and `address + 1` (the `+ 1` is `u16` arithmetic). -/
def MemoryBus.read_word (b : MemoryBus) (address : Nat) : Option (Nat × MemoryBus) :=
  (b.read_byte address).bind fun least =>
    (least.2.read_byte ((address + 1) % 65536)).map fun most =>
      ((most.1 <<< 8) ||| least.1, most.2)

/-- `MemoryBus::write_word`: little-endian, two `write_byte` calls. -/
def MemoryBus.write_word (b : MemoryBus) (address word : Nat) : Option MemoryBus :=
  let least_sig_bits := word &&& 0b11111111
  let most_sig_bits := (word >>> 8) &&& 0xFF
  (b.write_byte address least_sig_bits).bind fun b =>
    b.write_byte ((address + 1) % 65536) most_sig_bits

/-- `MemoryBus::tick`: count CPU cycles and forward three PPU dots per CPU
cycle (`cycles * 3` is `u8` arithmetic); the PPU's frame flag is dropped. -/
def MemoryBus.tick (b : MemoryBus) (cycles : Nat) : Option MemoryBus :=
  let b := { b with cycles := b.cycles + cycles }
  (b.ppu.tick (cycles * 3 % 256)).map fun r => { b with ppu := r.2 }

/-! Instruction descriptors (`cpu/instructions/mod.rs`). -/

/-- `instructions::InstructionType`. -/
inductive InstructionType
  | notImplemented
  | adc
  | and
  | asl
  | bcc
  | bcs
  | beq
  | bit
  | bmi
  | bne
  | bpl
  | brk
  | bvc
  | bvs
  | clc
  | cld
  | cli
  | clv
  | cmp
  | cpx
  | cpy
  | dec
  | dex
  | dey
  | eor
  | inc
  | inx
  | iny
  | isb
  | jmp
  | jsr
  | lda
  | ldx
  | ldy
  | lsr
  | nop
  | ora
  | pha
  | php
  | pla
  | plp
  | rol
  | ror
  | rti
  | rts
  | sbc
  | sec
  | sed
  | sei
  | sta
  | stx
  | sty
  | tax
  | tay
  | tsx
  | txa
  | txs
  | tya
deriving DecidableEq

/-- `instructions::MemoryAdressingMode` (the source's spelling). -/
inductive MemoryAdressingMode
  | immediate
  | implied
  | absolute
  | absoluteX
  | absoluteY
  | zeroPage
  | zeroPageX
  | zeroPageY
  | indirect
  | indirectX
  | indirectY
  | relative
  | accumulator
deriving DecidableEq

/-- `instructions::Instruction`: the static opcode descriptor. -/
structure Instruction where
  mnemonic : String
  op_code : Nat
  bytes : Nat
  cycle : Nat
  instruction_type : InstructionType
  memory_addressing_mode : MemoryAdressingMode
  plus_cycle : Bool

/-- `get_instruction_from_opcode`. The `0xFF` arm is the source's
`ILLEGAL_CODES` table (the 255-entry main table covers `0..=254`).
Modelled from the spec for the rest: the main table
(`instructions/instruction_set.rs`) is generated at build time from an
`ops_codes.json` listing absent from the sources; the spec fixes the
descriptor shape (operand byte count, base cycle cost, operation kind,
addressing mode, page-cross flag), requires the standard cycle-exact 6502
values for real opcodes, and maps unlisted opcodes to the
"not implemented" sentinel with base cycle 0. Only the descriptors this
development evaluates are filled in. -/
def get_instruction_from_opcode (op_code : Nat) : Instruction :=
  if op_code = 0xFF then ⟨"ISB", 0xff, 2, 7, .isb, .indirectX, false⟩
  else if op_code = 0x28 then ⟨"PLP", 0x28, 1, 4, .plp, .implied, false⟩
  else if op_code = 0xEA then ⟨"NOP", 0xEA, 1, 2, .nop, .implied, false⟩
  else if op_code = 0x2A then ⟨"ROL", 0x2A, 1, 2, .rol, .accumulator, false⟩
  else if op_code = 0x26 then ⟨"ROL", 0x26, 2, 5, .rol, .zeroPage, false⟩
  else if op_code = 0x4C then ⟨"JMP", 0x4C, 3, 3, .jmp, .absolute, false⟩
  else if op_code = 0x6C then ⟨"JMP", 0x6C, 3, 5, .jmp, .indirect, false⟩
  else ⟨"NotImplemented", op_code % 256, 0, 0, .notImplemented, .immediate, false⟩

/-! CPU engine (`cpu/mod.rs`). -/

def STACK : Nat := 0x0100

def OPCODE_EXIT : Nat := 0xf4

/-- `cpu::CPU`. -/
structure CPU where
  program_counter : Nat
  stack_pointer : Nat
  a : Nat
  x : Nat
  y : Nat
  processor_status : Nat
  bus : MemoryBus

/-- `CPU::read_next_byte`: fetch at the program counter and advance it. -/
def CPU.read_next_byte (c : CPU) : Option (Nat × CPU) :=
  (c.bus.read_byte c.program_counter).map fun r =>
    (r.1, { c with bus := r.2, program_counter := (c.program_counter + 1) % 65536 })

/-- `CPU::read_next_word`. -/
def CPU.read_next_word (c : CPU) : Option (Nat × CPU) :=
  (c.bus.read_word c.program_counter).map fun r =>
    (r.1, { c with bus := r.2, program_counter := (c.program_counter + 2) % 65536 })

/-- `CPU::push`: store at `0x0100 + sp`, then decrement sp (wrapping). -/
def CPU.push (c : CPU) (byte : Nat) : Option CPU :=
  (c.bus.write_byte (STACK + c.stack_pointer) byte).map fun bus =>
    { c with bus, stack_pointer := (c.stack_pointer + 255) % 256 }

/-- `CPU::push_word`: high byte then low byte. -/
def CPU.push_word (c : CPU) (word : Nat) : Option CPU := do
  let hi := (word >>> 8) &&& 0xFF
  let lo := word &&& 0xff
  let c ← c.push hi
  c.push lo

/-- `CPU::pop`: increment sp (wrapping), then load from `0x0100 + sp`. -/
def CPU.pop (c : CPU) : Option (Nat × CPU) :=
  let c := { c with stack_pointer := (c.stack_pointer + 1) % 256 }
  (c.bus.read_byte (STACK + c.stack_pointer)).map fun r => (r.1, { c with bus := r.2 })

/-- `CPU::pop_word`: low byte first, then high byte. -/
def CPU.pop_word (c : CPU) : Option (Nat × CPU) := do
  let (lo, c) ← c.pop
  let (hi, c) ← c.pop
  return (lo ||| (hi <<< 8), c)

/-- `CPU::set_negative_and_zero_process_status`. -/
def CPU.set_negative_and_zero_process_status (c : CPU) (int : Nat) : CPU :=
  let c := { c with processor_status := flagSet c.processor_status ProcessorStatus.ZERO (int == 0) }
  { c with processor_status := flagSet c.processor_status ProcessorStatus.NEGATIVE (ProcessorStatus.is_negative int) }

/-- `CPU::compare`. -/
def CPU.compare (c : CPU) (register value : Nat) : CPU :=
  let c := { c with processor_status := flagSet c.processor_status ProcessorStatus.CARRY (decide (register ≥ value)) }
  c.set_negative_and_zero_process_status (wrappingSub8 register value)

/-- `CPU::branch`: consume the relative offset byte, sign-extend it and
apply it to the program counter when the condition holds. -/
def CPU.branch (c : CPU) (jump : Bool) : Option CPU := do
  let (offset, c) ← c.read_next_byte
  let offset16 := if offset < 128 then offset else offset + 0xFF00
  if jump then
    return { c with program_counter := (c.program_counter + offset16) % 65536 }
  else
    return c

/-- `CPU::add`: 9-bit sum with carry-in; sets carry from bit 8 and
overflow from the sign bits (against the pre-assignment accumulator). -/
def CPU.add (c : CPU) (reg_value data : Nat) : Nat × CPU :=
  let sum := reg_value + data + (if flagContains c.processor_status ProcessorStatus.CARRY then 1 else 0)
  let c := { c with processor_status := flagSet c.processor_status ProcessorStatus.CARRY (decide (sum > 0xff)) }
  let sum := sum % 256
  let c := { c with processor_status := flagSet c.processor_status ProcessorStatus.OVERFLOW (((data ^^^ sum) &&& (sum ^^^ c.a) &&& 0x80) != 0) }
  (sum, c)

/-- `CPU::interrupt`: the guard returns without servicing when the
interrupt-disable flag is set and the type is not IRQ; otherwise push the
program counter and status (with break/break2 forced), set
interrupt-disable, tick the bus, and load the vector. -/
def CPU.interrupt (c : CPU) (interrupt : Interrupt) : Option CPU :=
  if flagContains c.processor_status ProcessorStatus.INTERRUPT_DISABLE
      && interrupt.itype != InterruptType.irq then
    some c
  else do
    let c ← c.push_word c.program_counter
    let flag := flagInsert (flagInsert c.processor_status ProcessorStatus.BREAK) ProcessorStatus.BREAK2
    let c ← c.push flag
    let c := { c with processor_status := flagInsert c.processor_status ProcessorStatus.INTERRUPT_DISABLE }
    let bus ← c.bus.tick interrupt.cpu_cycles
    let c := { c with bus }
    let (w, bus) ← c.bus.read_word interrupt.vector_addr
    return { c with bus, program_counter := w }

/-! Addressing-mode resolution (`cpu/mod.rs`, Addressing section). Each
resolver returns the effective address, the page-cross flag and the new
CPU state. -/

/-- `CPU::absolute_address`. -/
def CPU.absolute_address (c : CPU) : Option (Nat × Bool × CPU) :=
  (c.read_next_word).map fun r => (r.1, false, r.2)

/-- `CPU::absolute_x_address`. The source compares the LOW bytes of base
and result for its page-cross flag. -/
def CPU.absolute_x_address (c : CPU) : Option (Nat × Bool × CPU) := do
  let (base_addr, _, c) ← c.absolute_address
  let addr := (base_addr + c.x) % 65536
  return (addr, (addr &&& 0x00FF) != (base_addr &&& 0x00FF), c)

/-- `CPU::absolute_y_address`. -/
def CPU.absolute_y_address (c : CPU) : Option (Nat × Bool × CPU) := do
  let (base_addr, c) ← c.read_next_word
  let addr := (base_addr + c.y) % 65536
  return (addr, (addr &&& 0x00FF) != (base_addr &&& 0x00FF), c)

/-- `CPU::zero_page_address`. -/
def CPU.zero_page_address (c : CPU) : Option (Nat × Bool × CPU) :=
  (c.read_next_byte).map fun r => (r.1, false, r.2)

/-- `CPU::zero_page_x_address`: 8-bit wrapping add. -/
def CPU.zero_page_x_address (c : CPU) : Option (Nat × Bool × CPU) := do
  let (base_addr, c) ← c.read_next_byte
  let addr := (base_addr + c.x) % 256
  return (addr, (addr &&& 0x00FF) != (base_addr &&& 0x00FF), c)

/-- `CPU::zero_page_y_address`. -/
def CPU.zero_page_y_address (c : CPU) : Option (Nat × Bool × CPU) := do
  let (base_addr, c) ← c.read_next_byte
  let addr := (base_addr + c.y) % 256
  return (addr, (addr &&& 0x00FF) != (base_addr &&& 0x00FF), c)

/-- `CPU::indirect_x_address`. -/
def CPU.indirect_x_address (c : CPU) : Option (Nat × Bool × CPU) := do
  let (base, c) ← c.read_next_byte
  let ptr := (base + c.x) % 256
  let (lo, bus) ← c.bus.read_byte ptr
  let c := { c with bus }
  let (hi, bus) ← c.bus.read_byte ((ptr + 1) % 256)
  let c := { c with bus }
  return ((hi <<< 8) ||| lo, false, c)

/-- `CPU::indirect_y_address`. -/
def CPU.indirect_y_address (c : CPU) : Option (Nat × Bool × CPU) := do
  let (base, c) ← c.read_next_byte
  let (lo, bus) ← c.bus.read_byte base
  let c := { c with bus }
  let (hi, bus) ← c.bus.read_byte ((base + 1) % 256)
  let c := { c with bus }
  let deref_base := (hi <<< 8) ||| lo
  let addr := (deref_base + c.y) % 65536
  return (addr, (deref_base &&& 0xFF00) != (addr &&& 0xFF00), c)

/-- `CPU::get_address`: dispatch on the addressing mode; `Relative` and
the value modes panic (`none`). -/
def CPU.get_address (c : CPU) (memory_addressing_mode : MemoryAdressingMode) : Option (Nat × Bool × CPU) :=
  match memory_addressing_mode with
  | .absolute => c.absolute_address
  | .absoluteX => c.absolute_x_address
  | .absoluteY => c.absolute_y_address
  | .zeroPage => c.zero_page_address
  | .zeroPageX => c.zero_page_x_address
  | .zeroPageY => c.zero_page_y_address
  | .indirectX => c.indirect_x_address
  | .indirectY => c.indirect_y_address
  | .relative => none
  | _ => none

/-- `CPU::read_byte` (the addressing-mode overload): operand fetch. -/
def CPU.read_byte (c : CPU) (memory_addressing_mode : MemoryAdressingMode) : Option (Nat × Bool × CPU) :=
  match memory_addressing_mode with
  | .accumulator => some (c.a, false, c)
  | .immediate => (c.read_next_byte).map fun r => (r.1, false, r.2)
  | _ => do
    let (addr, page_cross, c) ← c.get_address memory_addressing_mode
    let (byte, bus) ← c.bus.read_byte addr
    return (byte, page_cross, { c with bus })

/-- `CPU::write_byte` (the addressing-mode overload): operand store. -/
def CPU.write_byte (c : CPU) (memory_addressing_mode : MemoryAdressingMode) (byte : Nat) : Option (Bool × CPU) :=
  match memory_addressing_mode with
  | .accumulator =>
    let c := { c with a := byte }
    some (false, c.set_negative_and_zero_process_status c.a)
  | _ => do
    let (addr, page_cross, c) ← c.get_address memory_addressing_mode
    let bus ← c.bus.write_byte addr byte
    return (page_cross, { c with bus })

/-! Instruction handlers (`cpu/mod.rs`, Instructions section). Each one
returns the cycle count handed back to the loop and the new CPU state. -/

/-- `CPU::adc`. -/
def CPU.adc (c : CPU) (instruction : Instruction) : Option (Nat × CPU) := do
  let (data, page_cross, c) ← c.read_byte instruction.memory_addressing_mode
  let (sum, c) := c.add c.a data
  let c := { c with a := sum }
  let c := c.set_negative_and_zero_process_status c.a
  return (if page_cross then instruction.cycle + 1 else instruction.cycle, c)

/-- `CPU::and`. -/
def CPU.and (c : CPU) (instruction : Instruction) : Option (Nat × CPU) := do
  let (data, page_cross, c) ← c.read_byte instruction.memory_addressing_mode
  let c := { c with a := c.a &&& data }
  let c := c.set_negative_and_zero_process_status c.a
  return (if page_cross then instruction.cycle + 1 else instruction.cycle, c)

/-- `CPU::asl`: shift left; carry takes bit 7. -/
def CPU.asl (c : CPU) (instruction : Instruction) : Option (Nat × CPU) :=
  match instruction.memory_addressing_mode with
  | .accumulator =>
    let c := { c with processor_status := flagSet c.processor_status ProcessorStatus.CARRY ((c.a >>> 7) == 1) }
    let c := { c with a := (c.a <<< 1) % 256 }
    let c := c.set_negative_and_zero_process_status c.a
    some (instruction.cycle, c)
  | .immediate => none
  | _ => do
    let (address, _page_cross, c) ← c.get_address instruction.memory_addressing_mode
    let (data, bus) ← c.bus.read_byte address
    let c := { c with bus }
    let c := { c with processor_status := flagSet c.processor_status ProcessorStatus.CARRY ((data >>> 7) == 1) }
    let data := (data <<< 1) % 256
    let bus ← c.bus.write_byte address data
    let c := { c with bus }
    let c := c.set_negative_and_zero_process_status data
    return (instruction.cycle, c)

/-- `CPU::bcc`. -/
def CPU.bcc (c : CPU) (instruction : Instruction) : Option (Nat × CPU) := do
  let c ← c.branch (!flagContains c.processor_status ProcessorStatus.CARRY)
  return (instruction.cycle, c)

/-- `CPU::bcs`. -/
def CPU.bcs (c : CPU) (instruction : Instruction) : Option (Nat × CPU) := do
  let c ← c.branch (flagContains c.processor_status ProcessorStatus.CARRY)
  return (instruction.cycle, c)

/-- `CPU::beq`. -/
def CPU.beq (c : CPU) (instruction : Instruction) : Option (Nat × CPU) := do
  let c ← c.branch (flagContains c.processor_status ProcessorStatus.ZERO)
  return (instruction.cycle, c)

/-- `CPU::bmi`. -/
def CPU.bmi (c : CPU) (instruction : Instruction) : Option (Nat × CPU) := do
  let c ← c.branch (flagContains c.processor_status ProcessorStatus.NEGATIVE)
  return (instruction.cycle, c)

/-- `CPU::bne`. -/
def CPU.bne (c : CPU) (instruction : Instruction) : Option (Nat × CPU) := do
  let c ← c.branch (!flagContains c.processor_status ProcessorStatus.ZERO)
  return (instruction.cycle, c)

/-- `CPU::bpl`. -/
def CPU.bpl (c : CPU) (instruction : Instruction) : Option (Nat × CPU) := do
  let c ← c.branch (!flagContains c.processor_status ProcessorStatus.NEGATIVE)
  return (instruction.cycle, c)

/-- `CPU::bvc`. -/
def CPU.bvc (c : CPU) (instruction : Instruction) : Option (Nat × CPU) := do
  let c ← c.branch (!flagContains c.processor_status ProcessorStatus.OVERFLOW)
  return (instruction.cycle, c)

/-- `CPU::bvs`. -/
def CPU.bvs (c : CPU) (instruction : Instruction) : Option (Nat × CPU) := do
  let c ← c.branch (flagContains c.processor_status ProcessorStatus.OVERFLOW)
  return (instruction.cycle, c)

/-- `CPU::bit`. -/
def CPU.bit (c : CPU) (instruction : Instruction) : Option (Nat × CPU) := do
  let (data, _page_cross, c) ← c.read_byte instruction.memory_addressing_mode
  let c := { c with processor_status := flagSet c.processor_status ProcessorStatus.ZERO ((data &&& c.a) == 0) }
  let c := { c with processor_status := flagSet c.processor_status ProcessorStatus.NEGATIVE (decide (data &&& 0b10000000 > 0)) }
  let c := { c with processor_status := flagSet c.processor_status ProcessorStatus.OVERFLOW (decide (data &&& 0b01000000 > 0)) }
  return (instruction.cycle, c)

/-- `CPU::brk`. -/
def CPU.brk (c : CPU) (instruction : Instruction) : Option (Nat × CPU) := do
  let c ← c.interrupt BRK
  return (instruction.cycle, c)

/-- `CPU::clc`. -/
def CPU.clc (c : CPU) (instruction : Instruction) : Option (Nat × CPU) :=
  some (instruction.cycle, { c with processor_status := flagSet c.processor_status ProcessorStatus.CARRY false })

/-- `CPU::cld`. -/
def CPU.cld (c : CPU) (instruction : Instruction) : Option (Nat × CPU) :=
  some (instruction.cycle, { c with processor_status := flagSet c.processor_status ProcessorStatus.DECIMAL false })

/-- `CPU::cli`. -/
def CPU.cli (c : CPU) (instruction : Instruction) : Option (Nat × CPU) :=
  some (instruction.cycle, { c with processor_status := flagSet c.processor_status ProcessorStatus.INTERRUPT_DISABLE false })

/-- `CPU::clv`. -/
def CPU.clv (c : CPU) (instruction : Instruction) : Option (Nat × CPU) :=
  some (instruction.cycle, { c with processor_status := flagSet c.processor_status ProcessorStatus.OVERFLOW false })

/-- `CPU::cmp`. -/
def CPU.cmp (c : CPU) (instruction : Instruction) : Option (Nat × CPU) := do
  let (data, page_cross, c) ← c.read_byte instruction.memory_addressing_mode
  let c := c.compare c.a data
  return (if page_cross then instruction.cycle + 1 else instruction.cycle, c)

/-- `CPU::cpx`. -/
def CPU.cpx (c : CPU) (instruction : Instruction) : Option (Nat × CPU) := do
  let (data, _page_cross, c) ← c.read_byte instruction.memory_addressing_mode
  let c := c.compare c.x data
  return (instruction.cycle, c)

/-- `CPU::cpy`. -/
def CPU.cpy (c : CPU) (instruction : Instruction) : Option (Nat × CPU) := do
  let (data, _page_cross, c) ← c.read_byte instruction.memory_addressing_mode
  let c := c.compare c.y data
  return (instruction.cycle, c)

/-- `CPU::dec`. -/
def CPU.dec (c : CPU) (instruction : Instruction) : Option (Nat × CPU) := do
  let (addr, _page_cross, c) ← c.get_address instruction.memory_addressing_mode
  let (value, bus) ← c.bus.read_byte addr
  let c := { c with bus }
  let new_value := wrappingSub8 value 1
  let bus ← c.bus.write_byte addr new_value
  let c := { c with bus }
  let c := c.set_negative_and_zero_process_status new_value
  return (instruction.cycle, c)

/-- `CPU::dex`. -/
def CPU.dex (c : CPU) (instruction : Instruction) : Option (Nat × CPU) :=
  let c := { c with x := wrappingSub8 c.x 1 }
  some (instruction.cycle, c.set_negative_and_zero_process_status c.x)

/-- `CPU::dey`. -/
def CPU.dey (c : CPU) (instruction : Instruction) : Option (Nat × CPU) :=
  let c := { c with y := wrappingSub8 c.y 1 }
  some (instruction.cycle, c.set_negative_and_zero_process_status c.y)

/-- `CPU::eor`. -/
def CPU.eor (c : CPU) (instruction : Instruction) : Option (Nat × CPU) := do
  let (a, page_cross, c) ← c.read_byte instruction.memory_addressing_mode
  let c := { c with a := c.a ^^^ a }
  let c := c.set_negative_and_zero_process_status c.a
  return (if page_cross then instruction.cycle + 1 else instruction.cycle, c)

/-- `CPU::inc`. -/
def CPU.inc (c : CPU) (instruction : Instruction) : Option (Nat × CPU) := do
  let (addr, _page_cross, c) ← c.get_address instruction.memory_addressing_mode
  let (value, bus) ← c.bus.read_byte addr
  let c := { c with bus }
  let new_value := (value + 1) % 256
  let bus ← c.bus.write_byte addr new_value
  let c := { c with bus }
  let c := c.set_negative_and_zero_process_status new_value
  return (instruction.cycle, c)

/-- `CPU::inx`. -/
def CPU.inx (c : CPU) (instruction : Instruction) : Option (Nat × CPU) :=
  let c := { c with x := (c.x + 1) % 256 }
  some (instruction.cycle, c.set_negative_and_zero_process_status c.x)

/-- `CPU::iny`. -/
def CPU.iny (c : CPU) (instruction : Instruction) : Option (Nat × CPU) :=
  let c := { c with y := (c.y + 1) % 256 }
  some (instruction.cycle, c.set_negative_and_zero_process_status c.y)

/-- `CPU::isb`: `todo!`, a panic. -/
def CPU.isb (_c : CPU) (_instruction : Instruction) : Option (Nat × CPU) :=
  none

/-- `CPU::jmp`: `Absolute` jumps to the next word; `Indirect` dereferences
a pointer, reproducing the 6502 page-boundary bug when the pointer's low
byte is `0xFF` (high byte fetched from the start of the same page). -/
def CPU.jmp (c : CPU) (instruction : Instruction) : Option (Nat × CPU) :=
  let addrResult : Option (Nat × CPU) :=
    match instruction.memory_addressing_mode with
    | .indirect =>
      (c.read_next_word).bind fun rw =>
        let addr := rw.1
        let c := rw.2
        if addr &&& 0x00ff = 0x00ff then
          (c.bus.read_byte addr).bind fun lo =>
            (lo.2.read_byte (addr &&& 0xFF00)).map fun hi =>
              ((hi.1 <<< 8) ||| lo.1, { c with bus := hi.2 })
        else
          (c.bus.read_word addr).map fun w => (w.1, { c with bus := w.2 })
    | .absolute => c.read_next_word
    | _ => none
  addrResult.map fun r => (instruction.cycle, { r.2 with program_counter := r.1 })

/-- `CPU::jsr`: push `pc - 1`, jump to the resolved address. -/
def CPU.jsr (c : CPU) (instruction : Instruction) : Option (Nat × CPU) := do
  let (addr, _page_cross, c) ← c.get_address instruction.memory_addressing_mode
  let return_point := c.program_counter - 1
  let c ← c.push_word return_point
  return (instruction.cycle, { c with program_counter := addr })

/-- `CPU::lda`. -/
def CPU.lda (c : CPU) (instruction : Instruction) : Option (Nat × CPU) := do
  let (a, page_cross, c) ← c.read_byte instruction.memory_addressing_mode
  let c := { c with a }
  let c := c.set_negative_and_zero_process_status c.a
  return (if page_cross then instruction.cycle + 1 else instruction.cycle, c)

/-- `CPU::ldx`. -/
def CPU.ldx (c : CPU) (instruction : Instruction) : Option (Nat × CPU) := do
  let (x, _page_cross, c) ← c.read_byte instruction.memory_addressing_mode
  let c := { c with x }
  let c := c.set_negative_and_zero_process_status c.x
  return (instruction.cycle, c)

/-- `CPU::ldy`. -/
def CPU.ldy (c : CPU) (instruction : Instruction) : Option (Nat × CPU) := do
  let (y, _page_cross, c) ← c.read_byte instruction.memory_addressing_mode
  let c := { c with y }
  let c := c.set_negative_and_zero_process_status c.y
  return (instruction.cycle, c)

/-- `CPU::lsr`: shift right; carry takes bit 0. -/
def CPU.lsr (c : CPU) (instruction : Instruction) : Option (Nat × CPU) :=
  match instruction.memory_addressing_mode with
  | .accumulator =>
    let c := { c with processor_status := flagSet c.processor_status ProcessorStatus.CARRY ((c.a &&& 0b00000001) == 1) }
    let c := { c with a := c.a >>> 1 }
    let c := c.set_negative_and_zero_process_status c.a
    some (instruction.cycle, c)
  | .immediate => none
  | _ => do
    let (address, _page_cross, c) ← c.get_address instruction.memory_addressing_mode
    let (data, bus) ← c.bus.read_byte address
    let c := { c with bus }
    let c := { c with processor_status := flagSet c.processor_status ProcessorStatus.CARRY ((data &&& 0b00000001) == 1) }
    let data := data >>> 1
    let bus ← c.bus.write_byte address data
    let c := { c with bus }
    let c := c.set_negative_and_zero_process_status data
    return (instruction.cycle, c)

/-- `CPU::nop`: non-`Implied` (illegal-opcode) forms still consume their
operand fetch. -/
def CPU.nop (c : CPU) (instruction : Instruction) : Option (Nat × CPU) :=
  match instruction.memory_addressing_mode with
  | .implied => some (instruction.cycle, c)
  | _ => (c.read_byte instruction.memory_addressing_mode).map fun r =>
      (instruction.cycle, r.2.2)

/-- `CPU::ora`. -/
def CPU.ora (c : CPU) (instruction : Instruction) : Option (Nat × CPU) := do
  let (data, page_cross, c) ← c.read_byte instruction.memory_addressing_mode
  let c := { c with a := c.a ||| data }
  let c := c.set_negative_and_zero_process_status c.a
  return (if page_cross then instruction.cycle + 1 else instruction.cycle, c)

/-- `CPU::pha`. -/
def CPU.pha (c : CPU) (instruction : Instruction) : Option (Nat × CPU) := do
  let c ← c.push c.a
  return (instruction.cycle, c)

/-- `CPU::php`: pushes the status with the break bit set. -/
def CPU.php (c : CPU) (instruction : Instruction) : Option (Nat × CPU) := do
  let c ← c.push (c.processor_status ||| ProcessorStatus.BREAK)
  return (instruction.cycle, c)

/-- `CPU::pla`. -/
def CPU.pla (c : CPU) (instruction : Instruction) : Option (Nat × CPU) := do
  let (data, c) ← c.pop
  let c := { c with a := data }
  let c := c.set_negative_and_zero_process_status c.a
  return (instruction.cycle, c)

/-- `CPU::plp`: restore the status from the stack, forcing break clear and
break2 set. The source returns `instruction.bytes` as its cycle count. -/
def CPU.plp (c : CPU) (instruction : Instruction) : Option (Nat × CPU) := do
  let (data, c) ← c.pop
  let ps := data &&& 0xFF
  let ps := flagRemove ps ProcessorStatus.BREAK
  let ps := flagInsert ps ProcessorStatus.BREAK2
  return (instruction.bytes, { c with processor_status := ps })

/-- `CPU::rol`: rotate left through carry. The source computes the new
carry as `value & 0b0100_0000 != 0b0100_0000` (the negation of bit 6). -/
def CPU.rol (c : CPU) (instruction : Instruction) : Option (Nat × CPU) :=
  match instruction.memory_addressing_mode with
  | .accumulator =>
    let carry := flagContains c.processor_status ProcessorStatus.CARRY
    let c := { c with processor_status := flagSet c.processor_status ProcessorStatus.CARRY ((c.a &&& 0b01000000) != 0b01000000) }
    let c := { c with a := (c.a <<< 1) % 256 }
    let c := if carry then { c with a := c.a ||| 0b00000001 } else c
    let c := c.set_negative_and_zero_process_status c.a
    some (instruction.cycle, c)
  | .immediate => none
  | _ => do
    let (address, _page_cross, c) ← c.get_address instruction.memory_addressing_mode
    let (data, bus) ← c.bus.read_byte address
    let c := { c with bus }
    let carry := flagContains c.processor_status ProcessorStatus.CARRY
    let c := { c with processor_status := flagSet c.processor_status ProcessorStatus.CARRY ((data &&& 0b01000000) != 0b01000000) }
    let data := (data <<< 1) % 256
    let data := if carry then data ||| 0b00000001 else data
    let bus ← c.bus.write_byte address data
    let c := { c with bus }
    let c := c.set_negative_and_zero_process_status data
    return (instruction.cycle, c)

/-- `CPU::ror`: rotate right through carry; carry takes bit 0. -/
def CPU.ror (c : CPU) (instruction : Instruction) : Option (Nat × CPU) :=
  match instruction.memory_addressing_mode with
  | .accumulator =>
    let carry := flagContains c.processor_status ProcessorStatus.CARRY
    let c := { c with processor_status := flagSet c.processor_status ProcessorStatus.CARRY ((c.a &&& 0b00000001) == 0b00000001) }
    let c := { c with a := c.a >>> 1 }
    let c := if carry then { c with a := c.a ||| 0b10000000 } else c
    let c := c.set_negative_and_zero_process_status c.a
    some (instruction.cycle, c)
  | .immediate => none
  | _ => do
    let (address, _page_cross, c) ← c.get_address instruction.memory_addressing_mode
    let (data, bus) ← c.bus.read_byte address
    let c := { c with bus }
    let carry := flagContains c.processor_status ProcessorStatus.CARRY
    let c := { c with processor_status := flagSet c.processor_status ProcessorStatus.CARRY ((data &&& 0b00000001) == 0b00000001) }
    let data := data >>> 1
    let data := if carry then data ||| 0b10000000 else data
    let bus ← c.bus.write_byte address data
    let c := { c with bus }
    let c := c.set_negative_and_zero_process_status data
    return (instruction.cycle, c)

/-- `CPU::rts`. -/
def CPU.rts (c : CPU) (instruction : Instruction) : Option (Nat × CPU) := do
  let (w, c) ← c.pop_word
  return (instruction.cycle, { c with program_counter := (w + 1) % 65536 })

/-- `CPU::rti`: restore status (break forced clear, break2 set), then pop
the program counter. -/
def CPU.rti (c : CPU) (instruction : Instruction) : Option (Nat × CPU) := do
  let (data, c) ← c.pop
  let ps := data &&& 0xFF
  let ps := flagRemove ps ProcessorStatus.BREAK
  let ps := flagInsert ps ProcessorStatus.BREAK2
  let c := { c with processor_status := ps }
  let (w, c) ← c.pop_word
  return (instruction.cycle, { c with program_counter := w })

/-- `CPU::sbc`: adds the two's-complement-minus-one of the operand. -/
def CPU.sbc (c : CPU) (instruction : Instruction) : Option (Nat × CPU) := do
  let (data, page_cross, c) ← c.read_byte instruction.memory_addressing_mode
  let (sum, c) := c.add c.a (wrappingSub8 (wrappingNeg8 data) 1)
  let c := { c with a := sum }
  let c := c.set_negative_and_zero_process_status c.a
  return (if page_cross then instruction.cycle + 1 else instruction.cycle, c)

/-- `CPU::sec`. -/
def CPU.sec (c : CPU) (instruction : Instruction) : Option (Nat × CPU) :=
  some (instruction.cycle, { c with processor_status := flagSet c.processor_status ProcessorStatus.CARRY true })

/-- `CPU::sed`. -/
def CPU.sed (c : CPU) (instruction : Instruction) : Option (Nat × CPU) :=
  some (instruction.cycle, { c with processor_status := flagSet c.processor_status ProcessorStatus.DECIMAL true })

/-- `CPU::sei`. -/
def CPU.sei (c : CPU) (instruction : Instruction) : Option (Nat × CPU) :=
  some (instruction.cycle, { c with processor_status := flagSet c.processor_status ProcessorStatus.INTERRUPT_DISABLE true })

/-- `CPU::sta`. -/
def CPU.sta (c : CPU) (instruction : Instruction) : Option (Nat × CPU) := do
  let (_page_cross, c1) ← c.write_byte instruction.memory_addressing_mode c.a
  return (instruction.cycle, c1)

/-- `CPU::stx`. -/
def CPU.stx (c : CPU) (instruction : Instruction) : Option (Nat × CPU) := do
  let (_page_cross, c1) ← c.write_byte instruction.memory_addressing_mode c.x
  return (instruction.cycle, c1)

/-- `CPU::sty`. -/
def CPU.sty (c : CPU) (instruction : Instruction) : Option (Nat × CPU) := do
  let (_page_cross, c1) ← c.write_byte instruction.memory_addressing_mode c.y
  return (instruction.cycle, c1)

/-- `CPU::tax`. -/
def CPU.tax (c : CPU) (instruction : Instruction) : Option (Nat × CPU) :=
  let c := { c with x := c.a }
  some (instruction.cycle, c.set_negative_and_zero_process_status c.x)

/-- `CPU::tay`. -/
def CPU.tay (c : CPU) (instruction : Instruction) : Option (Nat × CPU) :=
  let c := { c with y := c.a }
  some (instruction.cycle, c.set_negative_and_zero_process_status c.y)

/-- `CPU::tya`. -/
def CPU.tya (c : CPU) (instruction : Instruction) : Option (Nat × CPU) :=
  let c := { c with a := c.y }
  some (instruction.cycle, c.set_negative_and_zero_process_status c.a)

/-- `CPU::txs`. -/
def CPU.txs (c : CPU) (instruction : Instruction) : Option (Nat × CPU) :=
  some (instruction.cycle, { c with stack_pointer := c.x })

/-- `CPU::txa`. -/
def CPU.txa (c : CPU) (instruction : Instruction) : Option (Nat × CPU) :=
  let c := { c with a := c.x }
  some (instruction.cycle, c.set_negative_and_zero_process_status c.a)

/-- `CPU::tsx`. -/
def CPU.tsx (c : CPU) (instruction : Instruction) : Option (Nat × CPU) :=
  let c := { c with x := c.stack_pointer }
  some (instruction.cycle, c.set_negative_and_zero_process_status c.x)

/-- The dispatch `match` of `CPU::start_with_callback` over the operation
kind. The outer `Option` is a panic; `some none` is the `return` taken
when the sentinel opcode (`OPCODE_EXIT`) reaches the `NotImplemented`
arm; any other unimplemented opcode runs as `nop`. -/
def CPU.dispatch (c : CPU) (instruction : Instruction) : Option (Option (Nat × CPU)) :=
  match instruction.instruction_type with
  | .and => (c.and instruction).map some
  | .adc => (c.adc instruction).map some
  | .asl => (c.asl instruction).map some
  | .bcc => (c.bcc instruction).map some
  | .bcs => (c.bcs instruction).map some
  | .beq => (c.beq instruction).map some
  | .bit => (c.bit instruction).map some
  | .bmi => (c.bmi instruction).map some
  | .bne => (c.bne instruction).map some
  | .bpl => (c.bpl instruction).map some
  | .brk => (c.brk instruction).map some
  | .bvc => (c.bvc instruction).map some
  | .bvs => (c.bvs instruction).map some
  | .clc => (c.clc instruction).map some
  | .cld => (c.cld instruction).map some
  | .cli => (c.cli instruction).map some
  | .clv => (c.clv instruction).map some
  | .cmp => (c.cmp instruction).map some
  | .cpx => (c.cpx instruction).map some
  | .cpy => (c.cpy instruction).map some
  | .dec => (c.dec instruction).map some
  | .dex => (c.dex instruction).map some
  | .dey => (c.dey instruction).map some
  | .eor => (c.eor instruction).map some
  | .isb => (c.isb instruction).map some
  | .inc => (c.inc instruction).map some
  | .inx => (c.inx instruction).map some
  | .iny => (c.iny instruction).map some
  | .jmp => (c.jmp instruction).map some
  | .jsr => (c.jsr instruction).map some
  | .lda => (c.lda instruction).map some
  | .ldx => (c.ldx instruction).map some
  | .ldy => (c.ldy instruction).map some
  | .lsr => (c.lsr instruction).map some
  | .nop => (c.nop instruction).map some
  | .ora => (c.ora instruction).map some
  | .pha => (c.pha instruction).map some
  | .php => (c.php instruction).map some
  | .pla => (c.pla instruction).map some
  | .plp => (c.plp instruction).map some
  | .rol => (c.rol instruction).map some
  | .ror => (c.ror instruction).map some
  | .rti => (c.rti instruction).map some
  | .rts => (c.rts instruction).map some
  | .sta => (c.sta instruction).map some
  | .sbc => (c.sbc instruction).map some
  | .sec => (c.sec instruction).map some
  | .sed => (c.sed instruction).map some
  | .sei => (c.sei instruction).map some
  | .stx => (c.stx instruction).map some
  | .sty => (c.sty instruction).map some
  | .tax => (c.tax instruction).map some
  | .tsx => (c.tsx instruction).map some
  | .txs => (c.txs instruction).map some
  | .txa => (c.txa instruction).map some
  | .tay => (c.tay instruction).map some
  | .tya => (c.tya instruction).map some
  | .notImplemented =>
    if instruction.op_code == OPCODE_EXIT then some none
    else (c.nop instruction).map some

/-- The outcome of one loop iteration: the sentinel opcode halted the
loop, or an instruction ran with the given cycle count. -/
inductive StepOutcome
  | halted (cpu : CPU)
  | ran (cycles : Nat) (cpu : CPU)

/-- One iteration of the `CPU::start_with_callback` loop, in the source's
order: fetch the opcode byte (advancing the program counter), look the
descriptor up, THEN poll the bus for a pending NMI and service it, execute
the already-fetched instruction, run the observer callback (external; no
state change), service BRK when the break flag is set, and advance the bus
clock by the handler's cycle count. -/
def CPU.step (c : CPU) : Option StepOutcome := do
  let (op_code, c) ← c.read_next_byte
  let instruction := get_instruction_from_opcode op_code
  let c ←
    match c.bus.poll_nmi_status with
    | some InterruptType.nmi => c.interrupt NMI
    | some _ => none
    | none => some c
  match ← c.dispatch instruction with
  | none => return .halted c
  | some (cycles, c) =>
    let c ← if flagContains c.processor_status ProcessorStatus.BREAK then c.interrupt BRK else pure c
    let bus ← c.bus.tick cycles
    return .ran cycles { c with bus }

/-! Concrete fixtures for evaluating the embedding: a 32 KiB test
cartridge whose first byte is a chosen opcode, with the NMI vector set to
`0x9000` and the IRQ/BRK vector to `0xA000`, and CPU states over it. -/

/-- A test cartridge: PRG byte 0 (mapped at `0x8000`) is `op`; the NMI
vector holds `0x9000`, the IRQ/BRK vector `0xA000`; all else is `0xEA`. -/
def romWithOpcode (op : Nat) : Rom :=
  { prg_rom := fun i =>
      if i = 0 then op
      else if i = 0x7FFA then 0x00
      else if i = 0x7FFB then 0x90
      else if i = 0x7FFE then 0x00
      else if i = 0x7FFF then 0xA0
      else 0xEA
    prg_rom_len := 0x8000
    chr_rom := fun _ => 0
    chr_rom_len := 0
    mapper := 0
    screen_mirroring := .horizontal }

/-- A CPU at `0x8000` over `romWithOpcode op`, with the given status byte
and pending-NMI state. -/
def testCpu (op ps : Nat) (nmi : Option InterruptType) : CPU :=
  { program_counter := 0x8000
    stack_pointer := 0xFD
    a := 0
    x := 0
    y := 0
    processor_status := ps
    bus :=
      let b := MemoryBus.new (romWithOpcode op)
      { b with ppu := { b.ppu with nmi_interrupt := nmi } } }

/-- CPU state for the NMI-masking evaluation: interrupt-disable set. -/
def cpuMasked : CPU := testCpu 0xEA ProcessorStatus.INTERRUPT_DISABLE none

/-- CPU state for the interrupt-ordering evaluation: a pending NMI at the
top of the loop, all flags clear. -/
def cpuPendingNmi : CPU := testCpu 0xEA 0 (some .nmi)

/-- CPU state for the PLP cycle evaluation: next opcode `0x28`, one byte
(zero) on the stack. -/
def cpuPlp : CPU := { testCpu 0x28 0 none with stack_pointer := 0xFC }

/-- CPU state for the ROL evaluation: accumulator `0xC0` (bits 7 and 6
set), carry clear. -/
def cpuRol : CPU := { testCpu 0x2A 0 none with a := 0xC0 }

/-- CPU state for the indirect-JMP witness: the next word at `0x8000` is
the pointer `0x10FF` (low byte `0xFF`, end of its page); RAM holds `0x34`
at `0x10FF` (cell `0xFF` after mirroring) and `0x12` at `0x1000` (cell
`0x000`), so the bugged dereference must read `0x1234`. -/
def cpuJmpInd : CPU :=
  let c := testCpu 0xFF 0 none
  { c with
    bus := { c.bus with
      prg_rom := fun i => if i = 0 then 0xFF else if i = 1 then 0x10 else 0xEA
      memory := fun i => if i = 0xFF then 0x34 else if i = 0 then 0x12 else 0 } }

/-- The CPU state `cpuJmpInd` reaches after consuming the pointer word. -/
def cpuJmpInd1 : CPU := { cpuJmpInd with program_counter := 0x8002 }

/-- A PPU one dot before entering scanline 241, with the given control
byte. -/
def ppuAtVblankEntry (ctrl : Nat) : PPU :=
  { PPU.new (fun _ => 0) 0 .horizontal with ctrl, cycles := 340, scanline := 240 }

/-- A PPU one dot before wrapping from the last scanline (261), vblank
flag set. -/
def ppuAtFrameEnd : PPU :=
  { PPU.new (fun _ => 0) 0 .horizontal with cycles := 340, scanline := 261, status := 0b10000000 }

/-- A PPU with the vblank flag latched and both write-toggle latches
flipped, for the status-port read evaluation. -/
def ppuLatched : PPU :=
  { PPU.new (fun _ => 0) 0 .horizontal with
    status := 0b10000000
    address := ⟨0x21, 0x05, true⟩
    scroll := ⟨3, 7, true⟩ }

/-- A PPU whose internal address register points at palette space
(`0x3F00`). -/
def ppuPalette : PPU :=
  { PPU.new (fun _ => 0) 0 .horizontal with address := ⟨0x3F, 0x00, false⟩ }

/-- A PPU pointed at nametable VRAM `0x2100` with a stale read buffer
`0xAB`, VRAM holding `0x77` there, and the 32-step increment bit set. -/
def ppuNametable : PPU :=
  { PPU.new (fun _ => 0) 0 .horizontal with
    address := ⟨0x21, 0x00, false⟩
    buffer := 0xAB
    ctrl := 0b00000100
    vram := fun i => if i = 0x100 then 0x77 else 0 }

/-! Helper lemmas shared by the theorems below. -/

/-- Bus writes with addresses in `0x0000..=0x1FFF` land in the mirrored
RAM cell. -/
theorem write_byte_ram (b : MemoryBus) (a d : Nat) (ha : a ≤ 0x1FFF) :
    b.write_byte a d = some { b with memory := arrSet b.memory (a &&& 0x7FF) d } := by
  unfold MemoryBus.write_byte
  rw [if_pos ha]

/-- Bus reads with addresses in `0x0000..=0x1FFF` come from the mirrored
RAM cell and leave the bus unchanged. -/
theorem read_byte_ram (b : MemoryBus) (a : Nat) (ha : a ≤ 0x1FFF) :
    b.read_byte a = some (b.memory (a &&& 0x7FF), b) := by
  unfold MemoryBus.read_byte
  rw [if_pos ha]

/-- Reassembling the two bytes `write_word` splits off recovers the word. -/
theorem word_parts_recompose (v : Nat) (hv : v < 0x10000) :
    (((v >>> 8) &&& 0xFF) <<< 8) ||| (v &&& 0xFF) = v := by
  have h255 : (0xFF : Nat) = 2 ^ 8 - 1 := by norm_num
  apply Nat.eq_of_testBit_eq
  intro i
  rw [Nat.testBit_or, Nat.testBit_shiftLeft, Nat.testBit_and, Nat.testBit_and, h255,
    Nat.testBit_two_pow_sub_one, Nat.testBit_two_pow_sub_one, Nat.testBit_shiftRight]
  by_cases h8 : i < 8
  · simp [h8, Nat.not_le.mpr h8]
  · by_cases h16 : i < 16
    · have hle : 8 ≤ i := Nat.not_lt.mp h8
      have h1 : 8 + (i - 8) = i := by omega
      have h2 : i - 8 < 8 := by omega
      simp [hle, h1, h2, h8]
    · have hhi : v.testBit i = false := by
        apply Nat.testBit_eq_false_of_lt
        calc v < 0x10000 := hv
          _ = 2 ^ 16 := by norm_num
          _ ≤ 2 ^ i := Nat.pow_le_pow_right (by norm_num) (by omega)
      have h2 : ¬ (i - 8 < 8) := by omega
      simp [hhi, h2, h8]

/-! Claim theorems. -/

/-- C1: evaluation of `CPU::interrupt` at the failing input. With the
interrupt-disable flag set and a pending NMI, the guard returns the CPU
unchanged — the NMI is NOT serviced (nothing pushed, interrupt-disable
untouched, vector not loaded), contradicting the claim that non-maskable
interrupts are never masked. An IRQ in the same state IS serviced (vector
`0xA000` loaded, three bytes pushed), contradicting the claim that
maskable interrupts are the ones suppressed. -/
theorem nmi_masked_by_interrupt_disable_flag :
    CPU.interrupt cpuMasked NMI = some cpuMasked ∧
    (CPU.interrupt cpuMasked IRQ).map
        (fun c => (c.program_counter, c.stack_pointer)) = some (0xA000, 0xFA) :=
  ⟨rfl, rfl⟩

/-- C2: evaluation of `PPU::tick` at the vblank-entry scanline. With the
control register's interrupt-enable bit set, advancing onto scanline 241
aborts (the source hits `todo!("Should trigger NMI interrupt")`), so no
pending NMI is ever raised by `tick`; with the bit clear, the scanline
advances but the vblank status flag is NOT set and no NMI is pending —
both contradicting the claim that the vblank flag is set at scanline 241
independently of the interrupt-enable bit. The frame wrap at 262 (back to
scanline 0, vblank cleared, frame-complete true) does behave as claimed. -/
theorem vblank_entry_at_scanline_241_diverges :
    PPU.tick (ppuAtVblankEntry 0b10000000) 1 = none ∧
    (PPU.tick (ppuAtVblankEntry 0) 1).map
        (fun r => (r.1, r.2.scanline, Status.is_in_vblank r.2.status,
          r.2.nmi_interrupt.isSome)) = some (false, 241, false, false) ∧
    (PPU.tick ppuAtFrameEnd 1).map
        (fun r => (r.1, r.2.scanline, Status.is_in_vblank r.2.status)) =
      some (true, 0, false) :=
  ⟨rfl, rfl, rfl⟩

/-- C3: evaluation of one loop iteration with a pending NMI. The loop
fetches the opcode byte at `0x8000` FIRST (advancing the program counter
to `0x8001`) and only then polls and services the NMI: the return address
pushed on the stack is `0x8001` (high byte `0x80` at `0x01FD`, low byte
`0x01` at `0x01FC`), not the address `0x8000` of the not-yet-fetched
instruction the claim requires; the already-fetched instruction is then
still executed after the handler jump (final program counter `0x9000`,
the NMI vector target, after the fetched NOP). -/
theorem nmi_observed_after_opcode_fetch :
    (CPU.step cpuPendingNmi).map (fun out =>
      match out with
      | .ran cycles c => (cycles, c.program_counter, c.bus.memory 0x1FD, c.bus.memory 0x1FC)
      | .halted c => (0, c.program_counter, 0, 0)) = some (2, 0x9000, 0x80, 0x01) :=
  rfl

/-- C4: evaluation of `PPU::read_register` on the status port `0x2002`
with the vblank flag latched and both write-toggle latches flipped. The
read returns the status byte `0x80` but leaves the vblank flag set and
both latches flipped — the claimed clearing side effects do not happen
(that code sits in `PPU::read_data`, the data-port path, instead). -/
theorem status_port_read_keeps_vblank_and_latches :
    (PPU.read_register ppuLatched 0x2002).map
        (fun r => (r.1, Status.is_in_vblank r.2.status, r.2.address.pointer,
          r.2.scroll.latch)) = some (0x80, true, true, true) :=
  rfl

/-- C5: evaluation of one loop iteration executing PLP (opcode `0x28`).
The loop advances the bus clock by 1 cycle — `CPU::plp` returns
`instruction.bytes` — although the descriptor's base cycle cost is 4 and
PLP is not page-cross-sensitive, so the claim requires 4. -/
theorem plp_cycle_count_passed_to_bus :
    (CPU.step cpuPlp).map (fun out =>
      match out with
      | .ran cycles c => (cycles, c.bus.cycles)
      | .halted _ => (0, 0)) = some (1, 1) ∧
    (get_instruction_from_opcode 0x28).cycle = 4 ∧
    (get_instruction_from_opcode 0x28).plus_cycle = false :=
  ⟨rfl, rfl, rfl⟩

/-- C6: evaluation of `CPU::rol` (accumulator form) at two failing inputs.
The written result is as claimed (prior value shifted left, carry-in in
bit 0), but the carry-out is computed as the NEGATION of bit 6 of the
prior value instead of bit 7: with `a = 0xC0` (bit 7 set) the carry comes
out false, and with `a = 0x00` (bit 7 clear) it comes out true. -/
theorem rol_carry_not_bit_seven :
    (CPU.rol cpuRol (get_instruction_from_opcode 0x2A)).map
        (fun r => (r.2.a, flagContains r.2.processor_status ProcessorStatus.CARRY)) =
      some (0x80, false) ∧
    (CPU.rol { cpuRol with a := 0 } (get_instruction_from_opcode 0x2A)).map
        (fun r => (r.2.a, flagContains r.2.processor_status ProcessorStatus.CARRY)) =
      some (0x00, true) :=
  ⟨rfl, rfl⟩

/-- C7: evaluation of the bus at an address outside every decoded range
(`0x4020`). The read aborts — the source's catch-all arm is
`panic!("Ignoring mem access ...")` — instead of returning 0 as claimed;
the write at the same address is the claimed non-fatal no-op, and a write
into ROM space is fatal as claimed. -/
theorem unmapped_read_fatal_not_zero :
    MemoryBus.read_byte (MemoryBus.new (romWithOpcode 0xEA)) 0x4020 = none ∧
    MemoryBus.write_byte (MemoryBus.new (romWithOpcode 0xEA)) 0x4020 0x55 =
      some (MemoryBus.new (romWithOpcode 0xEA)) ∧
    MemoryBus.write_byte (MemoryBus.new (romWithOpcode 0xEA)) 0x9000 0x55 = none :=
  ⟨rfl, rfl, rfl⟩

/-- C8: for `JMP` with `Indirect` addressing, once the pointer word `ptr`
has been consumed, the program counter loaded is: when `ptr`'s low byte is
`0xFF`, the byte at `ptr` as low byte joined with the byte at the start of
the SAME page (`ptr AND 0xFF00`) as high byte; for every other pointer,
the little-endian word at `ptr`. -/
theorem jmp_indirect_target_resolution (c : CPU) (instruction : Instruction)
    (ptr : Nat) (c1 : CPU)
    (hmode : instruction.memory_addressing_mode = .indirect)
    (hptr : c.read_next_word = some (ptr, c1)) :
    (c.jmp instruction).map (fun r => r.2.program_counter) =
      (if ptr &&& 0x00ff = 0x00ff then
        (c1.bus.read_byte ptr).bind fun lo =>
          (lo.2.read_byte (ptr &&& 0xFF00)).map fun hi => (hi.1 <<< 8) ||| lo.1
      else
        (c1.bus.read_word ptr).map fun w => w.1) := by
  simp only [CPU.jmp, hmode]
  rw [hptr]
  simp only [Option.some_bind]
  by_cases h : ptr &&& 0x00ff = 0x00ff
  · rw [if_pos h, if_pos h]
    cases hlo : c1.bus.read_byte ptr with
    | none => simp
    | some lo =>
      simp only [hlo, Option.some_bind]
      cases hhi : lo.2.read_byte (ptr &&& 0xFF00) with
      | none => simp [hhi]
      | some hi => simp [hhi]
  · rw [if_neg h, if_neg h]
    cases hw : c1.bus.read_word ptr with
    | none => simp
    | some w => simp

/-- C8 witness: `JMP ($10FF)` with the target's low byte at `0x10FF` and
its high byte at `0x1000` jumps to `0x1234`. -/
theorem jmp_indirect_target_resolution_witness :
    (CPU.jmp cpuJmpInd (get_instruction_from_opcode 0x6C)).map
      (fun r => r.2.program_counter) = some 0x1234 := by
  have h := jmp_indirect_target_resolution cpuJmpInd
    (get_instruction_from_opcode 0x6C) 0x10FF cpuJmpInd1 rfl rfl
  rw [h]
  rfl

/-- C9 counterexample: the claim quantifies over ALL 16-bit addresses, but
at `a = 0x8000` (ROM space) the write is fatal and the round trip does not
return the written word. -/
theorem word_roundtrip_fails_at_rom :
    ((MemoryBus.new (romWithOpcode 0xEA)).write_word 0x8000 0x1234).bind
      (fun b2 => (b2.read_word 0x8000).map Prod.fst) ≠ some 0x1234 := by
  decide

/-- C9 amended: for every address `a` with both bytes inside the RAM
window (`a ≤ 0x1FFE`) and every 16-bit value `v`, `write_word(a, v)`
followed by `read_word(a)` returns `v`. -/
theorem word_roundtrip_in_ram (b : MemoryBus) (a v : Nat)
    (ha : a ≤ 0x1FFE) (hv : v < 0x10000) :
    (b.write_word a v).bind (fun b2 => (b2.read_word a).map Prod.fst) = some v := by
  have hm : (a + 1) % 65536 = a + 1 := Nat.mod_eq_of_lt (by omega)
  have hsl : a &&& 2047 = a % 2048 := by
    have h := Nat.and_pow_two_sub_one_eq_mod a 11
    norm_num at h
    exact h
  have hsl2 : (a + 1) &&& 2047 = (a + 1) % 2048 := by
    have h := Nat.and_pow_two_sub_one_eq_mod (a + 1) 11
    norm_num at h
    exact h
  have hne : ¬ ((a &&& 2047) = ((a + 1) &&& 2047)) := by
    rw [hsl, hsl2]
    omega
  simp only [MemoryBus.write_word]
  rw [write_byte_ram b a (v &&& 0xFF) (by omega), Option.some_bind, hm,
    write_byte_ram _ (a + 1) ((v >>> 8) &&& 0xFF) (by omega), Option.some_bind]
  simp only [MemoryBus.read_word]
  rw [read_byte_ram _ a (by omega), Option.some_bind]
  simp only
  rw [hm, read_byte_ram _ (a + 1) (by omega), Option.map_some']
  simp only [arrSet, if_neg hne]
  simp [word_parts_recompose v hv]

/-- C9 witness for the amended theorem: round trip of `0xABCD` at RAM
address `0x0010`. -/
theorem word_roundtrip_in_ram_witness :
    (0x10 : Nat) ≤ 0x1FFE ∧ (0xABCD : Nat) < 0x10000 ∧
    ((MemoryBus.new (romWithOpcode 0xEA)).write_word 0x10 0xABCD).bind
      (fun b2 => (b2.read_word 0x10).map Prod.fst) = some 0xABCD :=
  ⟨by decide, by decide,
    word_roundtrip_in_ram (MemoryBus.new (romWithOpcode 0xEA)) 0x10 0xABCD
      (by decide) (by decide)⟩

/-- C10: evaluation of the data-port read paths. With the internal address
register at `0x3F00` (palette space) the read aborts — the source indexes
the 32-entry palette table with the raw address `0x3F00`, out of bounds —
instead of returning the palette byte immediately as claimed. The
buffered nametable path does behave as claimed: with a stale buffer
`0xAB`, VRAM byte `0x77` at `0x2100` and the 32-step increment bit set,
the read returns `0xAB`, loads `0x77` into the buffer and advances the
address register to `0x2120`. -/
theorem palette_read_via_data_port_panics :
    PPU.read_data ppuPalette = none ∧
    (PPU.read_data ppuNametable).map
        (fun r => (r.1, r.2.buffer, r.2.address.get)) = some (0xAB, 0x77, 0x2120) :=
  ⟨rfl, rfl⟩

end NES
